import Mathlib

/-!
Goonbot-Myo: the gesture-to-command controller of `hello-myo.cpp`

A shallow embedding of the class `DataCollector` of `src/hello-myo.cpp` and
theorems about it.

Conventions of the embedding.

* The object is a record `DataCollector`; every member function is a function
  from the object (and its arguments) to the new object and what it did.
* The only observable effect kept is the list of command strings handed to
  `sendCommandtoEsp`, in call order.  Console output and the two trace files
  (`outlog`, `commandlog`) are left out.
* `myo::Pose` and `myo::Arm` are SDK enumerations; they are embedded as
  inductive types with the SDK's constructors.
* `action` has return type `bool` but executes no `return` statement when the
  pose is `rest` or equals `previouspose`.  C++ leaves the behaviour of such a
  call undefined.  `action` follows the statements as written (guards
  honoured, nothing sent) and records the missing value as `ret = none`, which
  marks exactly the calls whose behaviour the language does not fix; the
  caller `print`, which stores the result into `direction`, takes the value it
  then happens to read as an explicit argument `indet`.  A compiler may also
  take the end of the function to be unreachable and drop both guards; what
  the call does then is `actionBody`, the statements inside the guards.
* `double` constants and comparisons in `move` are embedded over `ℚ`.  The
  products `0.2*255`, `0.4*255`, `0.6*255`, `0.8*255`, `1*255` round to exactly
  51, 102, 153, 204, 255 in IEEE double arithmetic, so the comparisons agree.
* `float` arithmetic in `onOrientationData` is embedded as exact real
  arithmetic plus an explicit `FloatOutcome`: whether the clamp argument is
  NaN, and the rounding errors, which the exact values do not determine.
-/

namespace GoonbotMyo

/-! ## Command tokens (lines 20-32) -/

def STOPCMD : String := "stp000000"
def FWDSPD1 : String := "fwdspd051"
def FWDSPD2 : String := "fwdspd119"
def FWDSPD3 : String := "fwdspd187"
def FWDSPD4 : String := "fwdspd255"
def BWDSPD1 : String := "bwdspd051"
def BWDSPD2 : String := "bwdspd119"
def BWDSPD3 : String := "bwdspd187"
def BWDSPD4 : String := "bwdspd255"
def FWDLFT : String := "fwdlft000"
def BWDLFT : String := "bwdlft000"
def FWDRHT : String := "fwdrht000"
def BWDRHT : String := "bwdrht000"

/-- The command tokens defined at lines 20-32, in source order. -/
def vocabulary : List String :=
  [STOPCMD, FWDSPD1, FWDSPD2, FWDSPD3, FWDSPD4, BWDSPD1, BWDSPD2, BWDSPD3, BWDSPD4,
   FWDLFT, BWDLFT, FWDRHT, BWDRHT]

/-! ## SDK enumerations -/

/-- The pose values of `myo::Pose::Type`. -/
inductive Pose where
  | rest
  | fist
  | waveIn
  | waveOut
  | fingersSpread
  | doubleTap
  | unknown
  deriving DecidableEq, Repr

/-- The values of `myo::Arm`. -/
inductive Arm where
  | armLeft
  | armRight
  | armUnknown
  deriving DecidableEq, Repr

/-! ## The object -/

/-- The data members of `DataCollector` (lines 334-342).  `whichArm` is not
initialised by the constructor, hence the `Option`. -/
structure DataCollector where
  onArm : Bool
  whichArm : Option Arm
  isUnlocked : Bool
  roll_w : Int
  pitch_w : Int
  yaw_w : Int
  currentPose : Pose
  direction : Bool
  previouspose : Pose
  deriving DecidableEq, Repr

/-- The constructor (lines 42-45); `currentPose()` is the SDK default pose,
`unknown`. -/
def DataCollector.new : DataCollector :=
  { onArm := false
    whichArm := none
    isUnlocked := false
    roll_w := 0
    pitch_w := 0
    yaw_w := 0
    currentPose := Pose.unknown
    direction := true
    previouspose := Pose.unknown }

/-! ## Event callbacks -/

/-- The callback `onPose` (lines 79-95); the calls on the device handle do not
touch the object. -/
def onPose (s : DataCollector) (pose : Pose) : DataCollector :=
  { s with currentPose := pose }

/-- The callback `onArmSync` (lines 98-103). -/
def onArmSync (s : DataCollector) (arm : Arm) : DataCollector :=
  { s with onArm := true, whichArm := some arm }

/-- The callback `onUnlock` (lines 112-115). -/
def onUnlock (s : DataCollector) : DataCollector :=
  { s with isUnlocked := true }

/-- The callback `onLock` (lines 117-120). -/
def onLock (s : DataCollector) : DataCollector :=
  { s with isUnlocked := false }

/-! ## Robot functions -/

/-- The C++ conversion of a `bool` to `int`. -/
def boolToInt (b : Bool) : Int := if b then 1 else 0

/-- The C++ conversion of a `double` to `int`: truncation toward zero. -/
def truncToInt (q : ℚ) : Int := if 0 ≤ q then ⌊q⌋ else ⌈q⌉

/-- The C++ chained comparison `a <= b < c` on an `int` middle operand and
`double` bounds: it parses as `(a <= b) < c`, the first comparison yielding
0 or 1. -/
def chainLeLt (a : ℚ) (b : Int) (c : ℚ) : Bool :=
  decide (((boolToInt (decide (a ≤ (b : ℚ))) : Int) : ℚ) < c)

/-- The function `stp` (lines 158-163): the commands it sends. -/
def stp : List String := [STOPCMD]

/-- The local `pwn` of `move` after lines 167-176.  The guard
`0 <= pitch_w < 10` is `(0 <= pitch_w) < 10`; `(pitch_w - 10) / 10` is an
`int` division. -/
def movePwn (pitch_w : Int) : Int :=
  if boolToInt (decide (0 ≤ pitch_w)) < 10 then 0
  else truncToInt (255 * ((2 / 10 : ℚ) + ((Int.tdiv (pitch_w - 10) 10 : Int) : ℚ)))

/-- The function `move` (lines 165-235): the commands it sends. -/
def move (s : DataCollector) (fwdOrBwd : Bool) : List String :=
  let pwn := movePwn s.pitch_w
  if fwdOrBwd then
    if chainLeLt ((2 / 10 : ℚ) * 255) pwn ((4 / 10 : ℚ) * 255) then [FWDSPD1]
    else if chainLeLt ((4 / 10 : ℚ) * 255) pwn ((6 / 10 : ℚ) * 255) then [FWDSPD2]
    else if chainLeLt ((6 / 10 : ℚ) * 255) pwn ((8 / 10 : ℚ) * 255) then [FWDSPD3]
    else if chainLeLt ((8 / 10 : ℚ) * 255) pwn (1 * 255) then [FWDSPD4]
    else []
  else
    if chainLeLt ((2 / 10 : ℚ) * 255) pwn ((4 / 10 : ℚ) * 255) then [BWDSPD1]
    else if chainLeLt ((4 / 10 : ℚ) * 255) pwn ((6 / 10 : ℚ) * 255) then [BWDSPD2]
    else if chainLeLt ((6 / 10 : ℚ) * 255) pwn ((8 / 10 : ℚ) * 255) then [BWDSPD3]
    else if chainLeLt ((8 / 10 : ℚ) * 255) pwn (1 * 255) then [BWDSPD4]
    else []

/-- The function `lft` (lines 237-252): the commands it sends. -/
def lft (fwdOrBwd : Bool) : List String :=
  if fwdOrBwd then [FWDLFT] else [BWDLFT]

/-- The function `rht` (lines 254-267): the commands it sends. -/
def rht (fwdOrBwd : Bool) : List String :=
  if fwdOrBwd then [FWDRHT] else [BWDRHT]

/-! ## The controller -/

/-- What one call of `action` did: the object afterwards, the value returned
(`none` when control reaches the closing brace without a `return`), and the
commands sent. -/
structure ActionOutcome where
  self : DataCollector
  ret : Option Bool
  sent : List String
  deriving DecidableEq, Repr

/-- The function `action` (lines 270-321).  In the double-tap branch the
condition `fwdOrBwd = true` is an assignment whose value is `true`. -/
def action (s : DataCollector) (pose : Pose) (fwdOrBwd : Bool) : ActionOutcome :=
  let currentPose_ := pose
  if currentPose_ ≠ Pose.rest then
    if currentPose_ ≠ s.previouspose then
      let s1 := { s with previouspose := currentPose_ }
      if currentPose_ = Pose.doubleTap then
        let fwdOrBwd1 := true
        if fwdOrBwd1 then { self := s1, ret := some false, sent := [] }
        else { self := s1, ret := some true, sent := [] }
      else if currentPose_ = Pose.fist then
        { self := s1, ret := some fwdOrBwd, sent := stp }
      else if currentPose_ = Pose.waveOut then
        { self := s1, ret := some fwdOrBwd, sent := lft fwdOrBwd }
      else if currentPose_ = Pose.waveIn then
        { self := s1, ret := some fwdOrBwd, sent := rht fwdOrBwd }
      else if currentPose_ = Pose.fingersSpread then
        { self := s1, ret := some fwdOrBwd, sent := move s1 fwdOrBwd }
      else
        { self := s1, ret := some fwdOrBwd, sent := stp }
    else { self := s, ret := none, sent := [] }
  else { self := s, ret := none, sent := [] }

/-- The statements of `action` inside its two guards (lines 277-318):
`previouspose` is assigned and the decision table is run.  This is what a
call does once the guards of lines 274-275 are passed, and so what every call
does in a build that drops the guards. -/
def actionBody (s : DataCollector) (pose : Pose) (fwdOrBwd : Bool) : ActionOutcome :=
  let currentPose_ := pose
  let s1 := { s with previouspose := currentPose_ }
  if currentPose_ = Pose.doubleTap then
    let fwdOrBwd1 := true
    if fwdOrBwd1 then { self := s1, ret := some false, sent := [] }
    else { self := s1, ret := some true, sent := [] }
  else if currentPose_ = Pose.fist then
    { self := s1, ret := some fwdOrBwd, sent := stp }
  else if currentPose_ = Pose.waveOut then
    { self := s1, ret := some fwdOrBwd, sent := lft fwdOrBwd }
  else if currentPose_ = Pose.waveIn then
    { self := s1, ret := some fwdOrBwd, sent := rht fwdOrBwd }
  else if currentPose_ = Pose.fingersSpread then
    { self := s1, ret := some fwdOrBwd, sent := move s1 fwdOrBwd }
  else
    { self := s1, ret := some fwdOrBwd, sent := stp }

/-- The function `print` (lines 124-153): the object afterwards and the
commands sent.  `indet` is the value read by `direction = action(...)` when
`action` returned without a `return` statement. -/
def print (s : DataCollector) (indet : Bool) : DataCollector × List String :=
  if s.onArm then
    let r := action s s.currentPose s.direction
    ({ r.self with direction := r.ret.getD indet }, r.sent)
  else (s, [])

/-! ## Drivers -/

/-- Successive calls of `action`, one per (pose, direction argument) pair:
the final object and, per call, the commands sent. -/
def actionSeq (s : DataCollector) : List (Pose × Bool) → DataCollector × List (List String)
  | [] => (s, [])
  | c :: cs =>
    let r := action s c.1 c.2
    let rest := actionSeq r.self cs
    (rest.1, r.sent :: rest.2)

/-- One iteration of the main loop (lines 369-376) in which the hub delivers
the pose `pose`: `onPose` then `print`. -/
def tick (s : DataCollector) (pose : Pose) (indet : Bool) : DataCollector × List String :=
  print (onPose s pose) indet

/-- The main loop run over a list of (pose, indeterminate value) ticks: the
final object and all commands sent, in order. -/
def runTicks (s : DataCollector) : List (Pose × Bool) → DataCollector × List String
  | [] => (s, [])
  | t :: ts =>
    let r := tick s t.1 t.2
    let rest := runTicks r.1 ts
    (rest.1, r.2 ++ rest.2)

/-! ## Orientation -/

/-- What the `float` and `double` evaluation of lines 67-75 contributes
beyond the exact real value of each expression.

* `argNaN`: the clamp argument `2.0f * (w*y - z*x)` evaluates to NaN (after an
  overflow, `inf - inf`).
* `argErr`: otherwise, its computed value minus its exact value; unbounded, an
  overflow to an infinity being any value beyond the clamp.
* `bandErr`: the computed value of `(pitch + (float)M_PI / 2.0f) / M_PI * 18`
  minus the exact value of `(asin c + π/2) / π * 18` at the clamped argument
  `c`; it collects the error of `asin`, of the `float` constant and sum, and
  of the `double` quotient and product.
* `roll_w`, `yaw_w`: the values lines 73 and 75 store; their computation
  (lines 67-68, 70-71) is not embedded. -/
structure FloatOutcome where
  argNaN : Bool
  argErr : ℝ
  bandErr : ℝ
  roll_w : Int
  yaw_w : Int

/-- The outcome when every operation is exact. -/
noncomputable def FloatOutcome.exact (roll_w yaw_w : Int) : FloatOutcome :=
  { argNaN := false, argErr := 0, bandErr := 0, roll_w := roll_w, yaw_w := yaw_w }

/-- In the embedding, a call whose pose is `rest` or equals `previouspose`
takes the path that executes no `return`. -/
theorem action_suppressed (s : DataCollector) (p : Pose) (d : Bool)
    (h : p = Pose.rest ∨ p = s.previouspose) :
    action s p d = { self := s, ret := none, sent := [] } := by
  rcases h with h | h
  · subst h
    simp [action]
  · by_cases hr : p = Pose.rest
    · subst hr
      simp [action]
    · simp [action, hr, h]

/-- The function `action` is `actionBody` behind the two guards of lines
274-275; on the other path it reaches its closing brace with no `return`. -/
theorem action_eq_guarded (s : DataCollector) (p : Pose) (d : Bool) :
    action s p d =
      if p ≠ Pose.rest ∧ p ≠ s.previouspose then actionBody s p d
      else { self := s, ret := none, sent := [] } := by
  by_cases hr : p = Pose.rest
  · subst hr
    simp [action]
  · by_cases hp : p = s.previouspose
    · simp [action, hr, ← hp]
    · simp only [action, actionBody, ne_eq, hr, hp, not_false_eq_true, and_self, if_true]

/-- After any call, the pose just passed is `rest` or is the remembered one. -/
theorem action_remembers (s : DataCollector) (p : Pose) (d : Bool) :
    p = Pose.rest ∨ p = (action s p d).self.previouspose := by
  by_cases hr : p = Pose.rest
  · exact Or.inl hr
  · right
    by_cases hp : p = s.previouspose
    · simp [action, hr, ← hp]
    · unfold action
      simp only [ne_eq, hr, hp, not_false_eq_true, if_true]
      split_ifs <;> rfl

/-- Every call sends at most one command. -/
theorem action_sent_length_le_one (s : DataCollector) (p : Pose) (d : Bool) :
    (action s p d).sent.length ≤ 1 := by
  unfold action
  simp only [ne_eq, ite_not]
  split_ifs <;> simp [stp, lft, rht, move] <;> split_ifs <;> simp

/-- A fresh `fist`: remembered, `stp` called, direction argument returned. -/
theorem action_fist (s : DataCollector) (d : Bool) (h : s.previouspose ≠ Pose.fist) :
    action s Pose.fist d =
      { self := { s with previouspose := Pose.fist }, ret := some d, sent := [STOPCMD] } := by
  have h1 : ¬ Pose.fist = s.previouspose := fun e => h e.symm
  simp [action, h1, stp]

/-- A fresh `waveOut`: remembered, `lft` called, direction argument returned. -/
theorem action_waveOut (s : DataCollector) (d : Bool) (h : s.previouspose ≠ Pose.waveOut) :
    action s Pose.waveOut d =
      { self := { s with previouspose := Pose.waveOut }, ret := some d, sent := lft d } := by
  have h1 : ¬ Pose.waveOut = s.previouspose := fun e => h e.symm
  simp [action, h1]

/-- A fresh `waveIn`: remembered, `rht` called, direction argument returned. -/
theorem action_waveIn (s : DataCollector) (d : Bool) (h : s.previouspose ≠ Pose.waveIn) :
    action s Pose.waveIn d =
      { self := { s with previouspose := Pose.waveIn }, ret := some d, sent := rht d } := by
  have h1 : ¬ Pose.waveIn = s.previouspose := fun e => h e.symm
  simp [action, h1]

/-- A fresh `doubleTap`: remembered, nothing sent, `false` returned. -/
theorem action_doubleTap (s : DataCollector) (d : Bool) (h : s.previouspose ≠ Pose.doubleTap) :
    action s Pose.doubleTap d =
      { self := { s with previouspose := Pose.doubleTap }, ret := some false, sent := [] } := by
  have h1 : ¬ Pose.doubleTap = s.previouspose := fun e => h e.symm
  simp [action, h1]

/-! ## Shared facts about `move` -/

/-- The guard `(0 <= pitch_w) < 10` always holds, so `pwn` stays 0. -/
theorem movePwn_eq_zero (b : Int) : movePwn b = 0 := by
  unfold movePwn boolToInt
  split_ifs <;> first | rfl | omega

/-- The first chained test of `move` holds for `pwn = 0`. -/
theorem chainLeLt_first_zero : chainLeLt ((2 / 10 : ℚ) * 255) 0 ((4 / 10 : ℚ) * 255) = true := by
  unfold chainLeLt boolToInt
  norm_num

/-- The command `move` sends: always the speed-1 token of the family. -/
theorem move_eq (s : DataCollector) (d : Bool) :
    move s d = [if d then FWDSPD1 else BWDSPD1] := by
  unfold move
  simp only [movePwn_eq_zero, chainLeLt_first_zero, if_true]
  cases d <;> rfl

/-- A fresh `fingersSpread`: remembered, `move` called, direction argument
returned. -/
theorem action_fingersSpread (s : DataCollector) (d : Bool)
    (h : s.previouspose ≠ Pose.fingersSpread) :
    action s Pose.fingersSpread d =
      { self := { s with previouspose := Pose.fingersSpread }, ret := some d,
        sent := [if d then FWDSPD1 else BWDSPD1] } := by
  have h1 : ¬ Pose.fingersSpread = s.previouspose := fun e => h e.symm
  simp [action, h1, move_eq]

/-! ## Debouncing (C1-C3) -/

/-- C1 (evaluation of the code). Every repeat of a pose is a call of `action`
that reaches the closing brace without a `return`, whatever the object, the
pose and the direction arguments: its behaviour is not defined by the
language.  Concretely, after `action(fist, true)` on the constructed object,
the second `action(fist, true)` executes no `return`; in a build that drops
the guards it runs the body again and sends `stp000000` a second time and a
third time. -/
theorem action_repeat_no_return :
    (∀ (s : DataCollector) (p : Pose) (d e : Bool),
      (action (action s p d).self p e).ret = none) ∧
    (action DataCollector.new Pose.fist true).sent = ["stp000000"] ∧
    (action DataCollector.new Pose.fist true).self
      = (actionBody DataCollector.new Pose.fist true).self ∧
    (action (action DataCollector.new Pose.fist true).self Pose.fist true).ret = none ∧
    (actionBody (actionBody DataCollector.new Pose.fist true).self Pose.fist true).sent
      = ["stp000000"] ∧
    (actionBody (actionBody (actionBody DataCollector.new Pose.fist true).self
        Pose.fist true).self Pose.fist true).sent = ["stp000000"] := by
  refine ⟨?_, ?_, ?_, ?_, ?_, ?_⟩
  · intro s p d e
    rw [action_suppressed _ p e (action_remembers s p d)]
  · simp [action, DataCollector.new, stp, STOPCMD]
  · simp [action, actionBody, DataCollector.new]
  · simp [action, DataCollector.new]
  · simp [actionBody, stp, STOPCMD]
  · simp [actionBody, stp, STOPCMD]

/-- C2 (evaluation of the code). Every call `action(rest, d)` reaches the
closing brace without a `return`: its behaviour is not defined by the
language.  In a build that drops the guards the call runs the body, where
`rest` matches no branch but the last: it sends `stp000000` and overwrites
`previouspose` with `rest`, so that in `[fist, rest, fist]` the second `fist`
is no repeat and sends `stp000000` again. -/
theorem action_rest_no_return :
    (∀ (s : DataCollector) (d : Bool), (action s Pose.rest d).ret = none) ∧
    (action (action DataCollector.new Pose.fist true).self Pose.rest true).ret = none ∧
    (actionBody (actionBody DataCollector.new Pose.fist true).self Pose.rest true).sent
      = ["stp000000"] ∧
    (actionBody (actionBody DataCollector.new Pose.fist true).self
        Pose.rest true).self.previouspose = Pose.rest ∧
    (actionBody (actionBody (actionBody DataCollector.new Pose.fist true).self
        Pose.rest true).self Pose.fist true).sent = ["stp000000"] := by
  refine ⟨?_, ?_, ?_, ?_, ?_⟩
  · intro s d
    rw [action_suppressed s Pose.rest d (Or.inl rfl)]
  · simp [action]
  · simp [actionBody, stp, STOPCMD]
  · simp [actionBody]
  · simp [actionBody, stp, STOPCMD]

/-- C3 (evaluation of the code). On a suppressed event `action` executes no
`return`, so the direction stored by `print` is the indeterminate value read,
not the old direction: for `rest` and for a repeated pose the stored
direction is `indet` whatever the direction was; concretely, with the arm
recognised, direction `true` and pose `rest`, reading `false` leaves
`direction = false`. -/
theorem print_suppressed_direction :
    (∀ (s : DataCollector) (indet : Bool),
      (action s Pose.rest s.direction).ret = none ∧
      (print { s with onArm := true, currentPose := Pose.rest } indet).1.direction = indet) ∧
    (∀ (s : DataCollector) (p : Pose) (indet : Bool),
      (action { s with previouspose := p } p s.direction).ret = none ∧
      (print { s with onArm := true, currentPose := p, previouspose := p } indet).1.direction
        = indet) ∧
    (onArmSync DataCollector.new Arm.armRight).direction = true ∧
    (tick (onArmSync DataCollector.new Arm.armRight) Pose.rest false).1.direction = false ∧
    (tick (onArmSync DataCollector.new Arm.armRight) Pose.rest false).2 = [] := by
  refine ⟨?_, ?_, rfl, ?_, ?_⟩
  · intro s indet
    simp [print, action]
  · intro s p indet
    simp [print, action]
  · simp [tick, print, onPose, onArmSync, action]
  · simp [tick, print, onPose, onArmSync, action]

/-! ## The decision table (C4-C8) -/

/-- C4 (evaluation of the code). A fresh `doubleTap` with direction `false`
returns `false`, not the toggled value `true`, and sends nothing. -/
theorem action_doubleTap_false_not_toggled :
    (action DataCollector.new Pose.doubleTap false).ret = some false ∧
    (action DataCollector.new Pose.doubleTap false).ret ≠ some (!false) ∧
    (action DataCollector.new Pose.doubleTap false).sent = [] ∧
    (action DataCollector.new Pose.doubleTap true).ret = some (!true) := by
  simp [action, DataCollector.new]

/-- C5 (evaluation of the code). With pitch band 15 and direction `true`, a
fresh `fingersSpread` leaves `pwn = 0` (not 178.5) and sends the speed-1
token `fwdspd051`, not the speed-3 token `fwdspd187`; the same happens at each
of the bands 12 to 17, where the range test would give speed 2, 3 or 4.  The
direction argument is returned. -/
theorem action_fingersSpread_band15 :
    movePwn 15 = 0 ∧
    (action { DataCollector.new with pitch_w := 15 } Pose.fingersSpread true).sent
      = ["fwdspd051"] ∧
    (action { DataCollector.new with pitch_w := 15 } Pose.fingersSpread true).sent
      ≠ [FWDSPD3] ∧
    (action { DataCollector.new with pitch_w := 15 } Pose.fingersSpread true).ret = some true ∧
    ([12, 13, 14, 15, 16, 17].map fun b : Int =>
        (action { DataCollector.new with pitch_w := b } Pose.fingersSpread true).sent)
      = List.replicate 6 ["fwdspd051"] := by
  have h : ∀ b : Int,
      ({ DataCollector.new with pitch_w := b } : DataCollector).previouspose
        ≠ Pose.fingersSpread := by
    intro b
    simp [DataCollector.new]
  refine ⟨movePwn_eq_zero 15, ?_, ?_, ?_, ?_⟩
  · rw [action_fingersSpread _ _ (h 15)]
    rfl
  · rw [action_fingersSpread _ _ (h 15)]
    simp [FWDSPD1, FWDSPD3]
  · rw [action_fingersSpread _ _ (h 15)]
  · simp only [List.map, action_fingersSpread _ _ (h _)]
    rfl

/-- C6 (counterexample). At pitch band 10 with direction `true`, a fresh
`fingersSpread` does send a command, the token `fwdspd051`. -/
theorem action_fingersSpread_band10_sends :
    (action { DataCollector.new with pitch_w := 10 } Pose.fingersSpread true).sent
      = ["fwdspd051"] ∧
    (action { DataCollector.new with pitch_w := 10 } Pose.fingersSpread true).sent ≠ [] := by
  have h : ({ DataCollector.new with pitch_w := 10 } : DataCollector).previouspose
      ≠ Pose.fingersSpread := by
    simp [DataCollector.new]
  rw [action_fingersSpread _ _ h]
  simp [FWDSPD1]

/-- C6 (amended). For every pitch band `b` with `0 ≤ b ≤ 10` and each
direction `d`, a fresh `fingersSpread` returns `d` unchanged; at `b = 10`,
the band the guard `pitch_w < 10` leaves out of the `pwn = 0` region, it sends
exactly one command, the speed-1 token of the family selected by `d`
(`fwdspd051` if `d`, `bwdspd051` otherwise). -/
theorem action_fingersSpread_low_band (s : DataCollector) (d : Bool)
    (hfresh : s.previouspose ≠ Pose.fingersSpread)
    (_hlo : 0 ≤ s.pitch_w) (_hhi : s.pitch_w ≤ 10) :
    (action s Pose.fingersSpread d).ret = some d ∧
    (s.pitch_w = 10 →
      (action s Pose.fingersSpread d).sent = [if d then "fwdspd051" else "bwdspd051"]) := by
  rw [action_fingersSpread s d hfresh]
  refine ⟨rfl, ?_⟩
  intro _
  cases d <;> rfl

/-- C6 (witness): band 10, direction `false`, from the constructed object. -/
theorem action_fingersSpread_low_band_witness :
    (action { DataCollector.new with pitch_w := 10 } Pose.fingersSpread false).ret
      = some false ∧
    ((10 : Int) = 10 →
      (action { DataCollector.new with pitch_w := 10 } Pose.fingersSpread false).sent
        = [if false then "fwdspd051" else "bwdspd051"]) :=
  action_fingersSpread_low_band { DataCollector.new with pitch_w := 10 } false
    (by decide) (by decide) (by decide)

/-- C7. For every object in which `fist` is actionable
(`previouspose ≠ fist`), whatever its pitch band, and every direction `d`,
`action(fist, d)` sends exactly one command, the stop token `stp000000`, and
returns `d`. -/
theorem action_fist_stops (s : DataCollector) (d : Bool)
    (hfresh : s.previouspose ≠ Pose.fist) :
    (action s Pose.fist d).sent = ["stp000000"] ∧
    (action s Pose.fist d).ret = some d := by
  rw [action_fist s d hfresh]
  exact ⟨rfl, rfl⟩

/-- C7 (witness): the constructed object at pitch band 15, direction `false`. -/
theorem action_fist_stops_witness :
    (action { DataCollector.new with pitch_w := 15 } Pose.fist false).sent = ["stp000000"] ∧
    (action { DataCollector.new with pitch_w := 15 } Pose.fist false).ret = some false :=
  action_fist_stops { DataCollector.new with pitch_w := 15 } false (by decide)

/-- C8. Turn table: for every object, whatever its pitch band, in which the
pose is actionable, `action(waveOut, d)` sends exactly one command,
`fwdlft000` if `d` and `bwdlft000` otherwise, and `action(waveIn, d)` sends
exactly one command, `fwdrht000` if `d` and `bwdrht000` otherwise; the
returned direction is `d` in all four cases. -/
theorem action_turn_table (s : DataCollector) :
    (s.previouspose ≠ Pose.waveOut →
      (action s Pose.waveOut true).sent = ["fwdlft000"] ∧
      (action s Pose.waveOut true).ret = some true ∧
      (action s Pose.waveOut false).sent = ["bwdlft000"] ∧
      (action s Pose.waveOut false).ret = some false) ∧
    (s.previouspose ≠ Pose.waveIn →
      (action s Pose.waveIn true).sent = ["fwdrht000"] ∧
      (action s Pose.waveIn true).ret = some true ∧
      (action s Pose.waveIn false).sent = ["bwdrht000"] ∧
      (action s Pose.waveIn false).ret = some false) := by
  constructor
  · intro h
    rw [action_waveOut s true h, action_waveOut s false h]
    exact ⟨rfl, rfl, rfl, rfl⟩
  · intro h
    rw [action_waveIn s true h, action_waveIn s false h]
    exact ⟨rfl, rfl, rfl, rfl⟩

/-- C8 (witness): the constructed object, for which both poses are fresh. -/
theorem action_turn_table_witness :
    ((action DataCollector.new Pose.waveOut true).sent = ["fwdlft000"] ∧
      (action DataCollector.new Pose.waveOut true).ret = some true ∧
      (action DataCollector.new Pose.waveOut false).sent = ["bwdlft000"] ∧
      (action DataCollector.new Pose.waveOut false).ret = some false) ∧
    ((action DataCollector.new Pose.waveIn true).sent = ["fwdrht000"] ∧
      (action DataCollector.new Pose.waveIn true).ret = some true ∧
      (action DataCollector.new Pose.waveIn false).sent = ["bwdrht000"] ∧
      (action DataCollector.new Pose.waveIn false).ret = some false) :=
  ⟨(action_turn_table DataCollector.new).1 (by decide),
   (action_turn_table DataCollector.new).2 (by decide)⟩

/-! ## The main loop (C9) -/

/-- C9 (evaluation of the code). From the constructed object with the arm
recognised, the ticks `[fist, fist, waveIn, rest, waveIn]` send the stop token
and then one turn-right token whose family is the indeterminate value stored
into `direction` by the suppressed second `fist`: `fwdrht000` if it reads
`true`, `bwdrht000` if it reads `false`.  With `false` read on every suppressed
tick the commands are `[stp000000, bwdrht000]`, not `[stp000000, fwdrht000]`. -/
theorem runTicks_scenario :
    (∀ i1 i2 i3 i4 i5 : Bool,
      (runTicks (onArmSync DataCollector.new Arm.armRight)
          [(Pose.fist, i1), (Pose.fist, i2), (Pose.waveIn, i3), (Pose.rest, i4),
           (Pose.waveIn, i5)]).2
        = ["stp000000", if i2 then "fwdrht000" else "bwdrht000"]) ∧
    (runTicks (onArmSync DataCollector.new Arm.armRight)
        [(Pose.fist, false), (Pose.fist, false), (Pose.waveIn, false), (Pose.rest, false),
         (Pose.waveIn, false)]).2
      = ["stp000000", "bwdrht000"] ∧
    (runTicks (onArmSync DataCollector.new Arm.armRight)
        [(Pose.fist, false), (Pose.fist, false), (Pose.waveIn, false), (Pose.rest, false),
         (Pose.waveIn, false)]).2
      ≠ ["stp000000", "fwdrht000"] := by
  refine ⟨?_, ?_, ?_⟩
  · intro i1 i2 i3 i4 i5
    cases i2 <;>
      simp [runTicks, tick, print, onPose, onArmSync, DataCollector.new, action, stp, rht,
        STOPCMD, FWDRHT, BWDRHT]
  · simp [runTicks, tick, print, onPose, onArmSync, DataCollector.new, action, stp, rht,
      STOPCMD, BWDRHT]
  · simp [runTicks, tick, print, onPose, onArmSync, DataCollector.new, action, stp, rht,
      STOPCMD, BWDRHT]

/-! ## Orientation (C10) -/

/-- A fresh `unknown`: remembered, `stp` called, direction argument returned. -/
theorem action_unknown (s : DataCollector) (d : Bool) (h : s.previouspose ≠ Pose.unknown) :
    action s Pose.unknown d =
      { self := { s with previouspose := Pose.unknown }, ret := some d, sent := [STOPCMD] } := by
  have h1 : ¬ Pose.unknown = s.previouspose := fun e => h e.symm
  simp [action, h1, stp]

/-- Every command `action` sends is one of the thirteen tokens. -/
theorem action_sent_subset_vocabulary (s : DataCollector) (p : Pose) (d : Bool) :
    (action s p d).sent ⊆ vocabulary := by
  cases d <;>
    · unfold action
      simp only [ne_eq, ite_not]
      split_ifs <;> simp [stp, lft, rht, move_eq, vocabulary]

/-! ## Fallback, quiet start, gating, vocabulary (C11-C14) -/

/-- C11. Fallback of the decision table: for every object (whatever its pitch
band), every direction `d` and every actionable pose `p` (not `rest`, not the
remembered pose) other than `doubleTap`, `fist`, `waveOut`, `waveIn` and
`fingersSpread`, `action(p, d)` sends exactly one command, the stop token
`stp000000`, and returns `d`; such a pose is `unknown`, arriving when
`previouspose ≠ unknown`. -/
theorem action_fallback_stops (s : DataCollector) (p : Pose) (d : Bool)
    (hrest : p ≠ Pose.rest) (hfresh : p ≠ s.previouspose)
    (hdt : p ≠ Pose.doubleTap) (hfist : p ≠ Pose.fist) (hwo : p ≠ Pose.waveOut)
    (hwi : p ≠ Pose.waveIn) (hfs : p ≠ Pose.fingersSpread) :
    (action s p d).sent = ["stp000000"] ∧
    (action s p d).ret = some d ∧
    p = Pose.unknown ∧
    (action s Pose.unknown d).sent = ["stp000000"] ∧
    (action s Pose.unknown d).ret = some d := by
  have hp : p = Pose.unknown := by
    cases p <;> first | rfl | contradiction
  subst hp
  rw [action_unknown s d (fun e => hfresh e.symm)]
  exact ⟨rfl, rfl, rfl, rfl, rfl⟩

/-- C11 (witness): `unknown` arriving after a remembered `fist`, at pitch band
12, direction `false`. -/
theorem action_fallback_stops_witness :
    (action { DataCollector.new with previouspose := Pose.fist, pitch_w := 12 }
        Pose.unknown false).sent = ["stp000000"] ∧
    (action { DataCollector.new with previouspose := Pose.fist, pitch_w := 12 }
        Pose.unknown false).ret = some false ∧
    Pose.unknown = Pose.unknown ∧
    (action { DataCollector.new with previouspose := Pose.fist, pitch_w := 12 }
        Pose.unknown false).sent = ["stp000000"] ∧
    (action { DataCollector.new with previouspose := Pose.fist, pitch_w := 12 }
        Pose.unknown false).ret = some false :=
  action_fallback_stops { DataCollector.new with previouspose := Pose.fist, pitch_w := 12 }
    Pose.unknown false (by decide) (by decide) (by decide) (by decide) (by decide)
    (by decide) (by decide)

/-- C12 (evaluation of the code). Once the arm is recognised, a tick whose
pose is `unknown` (the remembered pose of the constructed object) or `rest` is
a call of `action` that reaches the closing brace without a `return`: its
behaviour is not defined by the language, and the direction `print` stores is
the indeterminate value.  In a build that drops the guards the call runs the
body and sends `stp000000`.  Before the arm is recognised `print` does not call
`action` and such ticks send nothing. -/
theorem tick_unknown_no_return :
    (∀ (arm : Arm) (d : Bool),
      (action (onPose (onArmSync DataCollector.new arm) Pose.unknown) Pose.unknown d).ret
        = none ∧
      (action (onPose (onArmSync DataCollector.new arm) Pose.rest) Pose.rest d).ret
        = none) ∧
    (onArmSync DataCollector.new Arm.armRight).direction = true ∧
    (tick (onArmSync DataCollector.new Arm.armRight) Pose.unknown false).1.direction = false ∧
    (actionBody (onPose (onArmSync DataCollector.new Arm.armRight) Pose.unknown)
        Pose.unknown true).sent = ["stp000000"] ∧
    (actionBody (onPose (onArmSync DataCollector.new Arm.armRight) Pose.rest)
        Pose.rest true).sent = ["stp000000"] ∧
    (runTicks DataCollector.new [(Pose.unknown, false), (Pose.rest, false)]).2 = [] := by
  refine ⟨?_, rfl, ?_, ?_, ?_, ?_⟩
  · intro arm d
    constructor
    · rw [action_suppressed _ Pose.unknown d (Or.inr rfl)]
    · rw [action_suppressed _ Pose.rest d (Or.inl rfl)]
  · simp [tick, print, onPose, onArmSync, DataCollector.new, action]
  · simp [actionBody, stp, STOPCMD]
  · simp [actionBody, stp, STOPCMD]
  · simp [runTicks, tick, print, onPose, DataCollector.new]

/-- C14. Closed command vocabulary: for every object and every pose, one call
of `action` sends at most one command, and every command it sends is one of
the 13 fixed tokens (1 stop, 8 forward/backward speed tokens, 4 turn tokens),
each exactly 9 characters long and pairwise distinct. -/
theorem action_closed_vocabulary (s : DataCollector) (p : Pose) (d : Bool) :
    (action s p d).sent.length ≤ 1 ∧
    (action s p d).sent ⊆ vocabulary ∧
    vocabulary =
      ["stp000000", "fwdspd051", "fwdspd119", "fwdspd187", "fwdspd255",
       "bwdspd051", "bwdspd119", "bwdspd187", "bwdspd255",
       "fwdlft000", "bwdlft000", "fwdrht000", "bwdrht000"] ∧
    vocabulary.length = 13 ∧
    vocabulary.map String.length = List.replicate 13 9 ∧
    vocabulary.Nodup := by
  refine ⟨action_sent_length_le_one s p d, action_sent_subset_vocabulary s p d, rfl, rfl, ?_, ?_⟩
  · decide
  · decide

/-! ## What the source does literally (C15-C16) -/

/-- C15. The double-tap branch does not alternate: for every object with
`previouspose ≠ doubleTap` and both direction values `d`,
`action(doubleTap, d)` returns `false`; and for no object and no direction does
`action(doubleTap, d)` return `true`, the branch returning `true` being
unreachable. -/
theorem action_doubleTap_returns_false (s : DataCollector) (d : Bool)
    (hfresh : s.previouspose ≠ Pose.doubleTap) :
    (action s Pose.doubleTap d).ret = some false ∧
    (action s Pose.doubleTap true).ret = some false ∧
    (action s Pose.doubleTap false).ret = some false ∧
    (∀ (t : DataCollector) (e : Bool), (action t Pose.doubleTap e).ret ≠ some true) := by
  refine ⟨?_, ?_, ?_, ?_⟩
  · rw [action_doubleTap s d hfresh]
  · rw [action_doubleTap s true hfresh]
  · rw [action_doubleTap s false hfresh]
  · intro t e
    by_cases h : t.previouspose = Pose.doubleTap
    · rw [action_suppressed t Pose.doubleTap e (Or.inr h.symm)]
      simp
    · rw [action_doubleTap t e h]
      simp

/-- C15 (witness): the constructed object, direction argument `false`. -/
theorem action_doubleTap_returns_false_witness :
    (action DataCollector.new Pose.doubleTap false).ret = some false ∧
    (action DataCollector.new Pose.doubleTap true).ret = some false ∧
    (action DataCollector.new Pose.doubleTap false).ret = some false ∧
    (∀ (t : DataCollector) (e : Bool), (action t Pose.doubleTap e).ret ≠ some true) :=
  action_doubleTap_returns_false DataCollector.new false (by decide)

/-- C16. The command sent by `move` does not depend on the pitch band: with
the chained comparisons evaluated as `(a <= b) < c` and the `int` division,
for every `pitch_w` and each direction `d`, `pwn` is 0 and `move(d)` sends
exactly one command, `fwdspd051` if `d` and `bwdspd051` otherwise; the speed-2,
speed-3 and speed-4 tokens are never sent, by `move` or through `action`. -/
theorem move_band_independent (s : DataCollector) (b : Int) (d : Bool) (p : Pose) :
    movePwn b = 0 ∧
    move { s with pitch_w := b } d = [if d then "fwdspd051" else "bwdspd051"] ∧
    move { s with pitch_w := b } true = ["fwdspd051"] ∧
    move { s with pitch_w := b } false = ["bwdspd051"] ∧
    (move { s with pitch_w := b } d).length = 1 ∧
    move { s with pitch_w := b } d = move s d ∧
    (move { s with pitch_w := b } d).all
      (fun c => decide (c ∉ [FWDSPD2, FWDSPD3, FWDSPD4, BWDSPD2, BWDSPD3, BWDSPD4])) = true ∧
    (action { s with pitch_w := b } p d).sent.all
      (fun c => decide (c ∉ [FWDSPD2, FWDSPD3, FWDSPD4, BWDSPD2, BWDSPD3, BWDSPD4])) = true := by
  refine ⟨movePwn_eq_zero b, ?_, ?_, ?_, ?_, ?_, ?_, ?_⟩
  · rw [move_eq]
    cases d <;> rfl
  · rw [move_eq]
    rfl
  · rw [move_eq]
    rfl
  · rw [move_eq]
    rfl
  · rw [move_eq, move_eq]
  · rw [move_eq]
    cases d <;> decide
  · cases d <;>
      · unfold action
        simp only [ne_eq, ite_not]
        split_ifs <;> simp only [stp, lft, rht, move_eq] <;> decide

end GoonbotMyo
